import Mathlib

/-!
Verification of the image-compositing core of the logo-to-linkedin
repository (src/utils/imageUtils.ts and src/components/ImageProcessor.tsx).

The TypeScript code is shallowly embedded:
  - JavaScript numbers are modelled as exact rationals (`ℚ`); channel
    values stored in `Uint8ClampedArray` slots are integers (`ℤ`).
  - `Math.round` is `round` (both send x to ⌊x + 1/2⌋).
  - The floating-point Euclidean color distance computed by
    `removeBackgroundAdvanced` (a `Math.sqrt` of a sum of squares, hence a
    nonnegative value) enters the per-pixel matting rule as a nonnegative
    parameter.
  - Canvas compositors are modelled as builders of a `Canvas` record
    carrying the declared dimensions and the exact sequence of drawing
    operations (with their numeric arguments) that the source emits.
-/

/-- A stored byte of a `Uint8ClampedArray`: the runtime clamps the written
value to [0,255] and rounds it to an integer.  (JavaScript rounds ties to
even; `round` rounds ties up.  The two agree except exactly at ties, and
either way the stored value stays inside the clamp bounds, which is all the
claims below depend on.) -/
def u8store (x : ℚ) : ℤ :=
  if x < 0 then 0 else if 255 < x then 255 else round x

/-- Per-pixel alpha update of `removeBackgroundAdvanced`
(src/utils/imageUtils.ts lines 209-233).  `colorDistance` is the
floating-point Euclidean RGB distance of the pixel to the estimated
background color (line 219), `edge` is the pixel's entry in the Sobel edge
mask, `alpha` is the pixel's incoming alpha byte.  The threshold constant is
30 (line 210); the second branch tests `threshold * 1.5` and stores
`Math.min(255, Math.round((colorDistance / threshold) * 255))`. -/
def matteAlpha (colorDistance : ℚ) (edge : Bool) (alpha : ℤ) : ℤ :=
  if colorDistance < 30 ∧ edge = false then
    0
  else if colorDistance < 30 * (3/2) ∧ edge = false then
    min 255 (round (colorDistance / 30 * 255))
  else
    alpha

/-- Modelled from the spec (§4.3 step 3): the alpha-matting rule as the
specification words it, with the partial-transparency branch written as
`clamp(0,255, round(distance/30 * 255))`.  Used only to compare against
`matteAlpha`, which is translated from the source. -/
def specMatteAlpha (colorDistance : ℚ) (edge : Bool) (alpha : ℤ) : ℤ :=
  if colorDistance < 30 ∧ edge = false then
    0
  else if colorDistance < 45 ∧ edge = false then
    max 0 (min 255 (round (colorDistance / 30 * 255)))
  else
    alpha

/-- One channel of the contrast step of `enhanceColors`
(src/utils/imageUtils.ts line 442): `min(255, max(0, (v - 128) * 1.1 + 128))`
written into a `Uint8ClampedArray` slot. -/
def contrastByte (v : ℤ) : ℤ :=
  u8store (min 255 (max 0 (((v : ℚ) - 128) * (11/10) + 128)))

/-- One channel of the saturation step of `enhanceColors`
(src/utils/imageUtils.ts lines 447-450): `min(255, max(0, v + (v - avg) * 0.1))`
where `avg` is the mean of the three contrast-adjusted channels. -/
def saturateByte (v : ℤ) (avg : ℚ) : ℤ :=
  u8store (min 255 (max 0 ((v : ℚ) + ((v : ℚ) - avg) * (1/10))))

/-- The full per-pixel transform of `enhanceColors`
(src/utils/imageUtils.ts lines 440-451): contrast on each channel, then the
saturation nudge using the average of the contrast-adjusted channels. -/
def enhancePixel (r g b : ℤ) : ℤ × ℤ × ℤ :=
  let r1 := contrastByte r
  let g1 := contrastByte g
  let b1 := contrastByte b
  let avg : ℚ := ((r1 : ℚ) + (g1 : ℚ) + (b1 : ℚ)) / 3
  (saturateByte r1 avg, saturateByte g1 avg, saturateByte b1 avg)

/-- The red row of the sepia matrix of the `vintage` variant
(src/utils/imageUtils.ts line 685): `(r * 0.393) + (g * 0.769) + (b * 0.189)`. -/
def sepiaRawR (r g b : ℤ) : ℚ :=
  (r : ℚ) * (393/1000) + (g : ℚ) * (769/1000) + (b : ℚ) * (189/1000)

/-- The green row of the sepia matrix (src/utils/imageUtils.ts line 686). -/
def sepiaRawG (r g b : ℤ) : ℚ :=
  (r : ℚ) * (349/1000) + (g : ℚ) * (686/1000) + (b : ℚ) * (168/1000)

/-- The blue row of the sepia matrix (src/utils/imageUtils.ts line 687). -/
def sepiaRawB (r g b : ℤ) : ℚ :=
  (r : ℚ) * (272/1000) + (g : ℚ) * (534/1000) + (b : ℚ) * (131/1000)

/-- The per-pixel sepia transform of the `vintage` variant
(src/utils/imageUtils.ts lines 679-688): each output channel is
`Math.min(255, row)` written into a `Uint8ClampedArray` slot. -/
def sepiaPixel (r g b : ℤ) : ℤ × ℤ × ℤ :=
  (u8store (min 255 (sepiaRawR r g b)),
   u8store (min 255 (sepiaRawG r g b)),
   u8store (min 255 (sepiaRawB r g b)))

/-- The source crop rectangle of the aspect-preserving blitter. -/
structure CropRect where
  cx : ℚ
  cy : ℚ
  cw : ℚ
  ch : ℚ
  deriving DecidableEq, Repr

/-- The crop computation of `drawImageProp`
(src/utils/imageUtils.ts lines 139-174), translated line by line: clamp the
offsets to [0,1], compute the fill scale `r = min(w/iw, h/ih)`, grow it by
the aspect correction `ar` (the second test uses the literal tolerance
1e-14), derive the source rectangle `(cx, cy, cw, ch)`, and clamp it. -/
def drawImagePropCrop (iw ih w h offsetX offsetY : ℚ) : CropRect :=
  let ox := if offsetX < 0 then 0 else offsetX
  let oy := if offsetY < 0 then 0 else offsetY
  let ox := if 1 < ox then 1 else ox
  let oy := if 1 < oy then 1 else oy
  let r := min (w / iw) (h / ih)
  let nw := iw * r
  let nh := ih * r
  let ar : ℚ := 1
  let ar := if nw < w then w / nw else ar
  let ar := if |ar - 1| < 1 / 100000000000000 ∧ nh < h then h / nh else ar
  let nw := nw * ar
  let nh := nh * ar
  let cw := iw / (nw / w)
  let ch := ih / (nh / h)
  let cx := (iw - cw) * ox
  let cy := (ih - ch) * oy
  let cx := if cx < 0 then 0 else cx
  let cy := if cy < 0 then 0 else cy
  let cw := if iw < cw then iw else cw
  let ch := if ih < ch then ih else ch
  ⟨cx, cy, cw, ch⟩

/-- Dimensions of a decoded raster image (an `HTMLImageElement`), as a pair
of JavaScript numbers. -/
structure Raster where
  width : ℚ
  height : ℚ
  deriving DecidableEq, Repr

/-- Which source raster a drawing call reads: the decoded profile photo, the
matte-extracted logo (`removeBackgroundAdvanced`, which preserves the logo's
dimensions), or the unprocessed logo (the second banner draws it raw). -/
inductive ImgSrc
  | profilePhoto
  | processedLogo
  | rawLogo
  deriving DecidableEq, Repr

/-- The `globalCompositeOperation` values the compositors set. -/
inductive BlendMode
  | sourceOver
  | overlay
  | screen
  | lighten
  deriving DecidableEq, Repr

/-- A canvas fill style: a CSS color string or a gradient with its two
stops. -/
inductive FillStyle
  | color (c : String)
  | linearGradient (x0 y0 x1 y1 : ℚ) (stop0 stop1 : String)
  | radialGradient (x0 y0 r0 x1 y1 r1 : ℚ) (stop0 stop1 : String)
  deriving DecidableEq, Repr

/-- One recorded canvas drawing operation, with the numeric arguments the
source passes.  `drawCropped` records a 9-argument `ctx.drawImage` (source
crop rectangle plus destination rectangle) together with the ambient
`globalAlpha` and `globalCompositeOperation`; `drawScaled` records a
5-argument `ctx.drawImage`.  The pixel-space filter loops
(`enhanceColors`, the duotone remap, the sepia remap) are recorded as
operations here and verified per pixel by `enhancePixel`/`sepiaPixel`. -/
inductive DrawOp
  | clipCircle (cx cy r : ℚ)
  | clipTriangle (x1 y1 x2 y2 x3 y3 : ℚ)
  | drawCropped (src : ImgSrc) (crop : CropRect) (dx dy dw dh : ℚ)
      (alpha : ℚ) (blend : BlendMode)
  | drawScaled (src : ImgSrc) (dx dy dw dh : ℚ)
  | fillRect (style : FillStyle) (x y w h : ℚ)
  | strokeCircle (cx cy r : ℚ) (style : String) (lineWidth : ℚ)
  | strokeRectOp (x y w h : ℚ) (style : String) (lineWidth : ℚ)
  | strokeLine (x1 y1 x2 y2 : ℚ) (style : String) (lineWidth : ℚ)
  | fillTextOp (text : String) (x y : ℚ) (font : String) (style : String)
  | applyEnhance (w h : ℚ)
  | applyDuotone (w h : ℚ)
  | applySepia (w h : ℚ)
  | noiseTexture (w h : ℚ) (vals : ℕ → ℤ)

/-- An output canvas: its declared dimensions and the ordered drawing
operations performed on it. -/
structure Canvas where
  width : ℚ
  height : ℚ
  ops : List DrawOp

/-- A `drawImageProp(ctx, img, x, y, w, h)` call (all call sites use the
default centered offsets 0.5): the crop rectangle is computed by
`drawImagePropCrop` from the source raster's dimensions, then a 9-argument
`ctx.drawImage` is issued under the ambient alpha and blend mode. -/
def drawImagePropOp (src : ImgSrc) (img : Raster) (x y w h alpha : ℚ)
    (blend : BlendMode) : DrawOp :=
  DrawOp.drawCropped src (drawImagePropCrop img.width img.height w h (1/2) (1/2))
    x y w h alpha blend

/-- `addVignette` (src/utils/imageUtils.ts lines 419-429): fill the whole
canvas with a radial gradient from transparent black at radius 0.3·h to
30%-opacity black at radius 0.7·h, centered. -/
def addVignette (w h : ℚ) : DrawOp :=
  DrawOp.fillRect
    (FillStyle.radialGradient (w/2) (h/2) (h * (3/10)) (w/2) (h/2) (h * (7/10))
      "rgba(0,0,0,0)" "rgba(0,0,0,0.3)")
    0 0 w h

/-- The closed variant union type of `createHeadshotVariant`
(src/utils/imageUtils.ts line 463): seven tags. -/
inductive Variant
  | professional
  | artistic
  | minimal
  | bold
  | gradient
  | duotone
  | vintage
  deriving DecidableEq, Fintype, Repr

/-- The string tag of each variant. -/
def Variant.name : Variant → String
  | .professional => "professional"
  | .artistic => "artistic"
  | .minimal => "minimal"
  | .bold => "bold"
  | .gradient => "gradient"
  | .duotone => "duotone"
  | .vintage => "vintage"

/-- All inhabitants of `Variant`, in source order. -/
def allVariants : List Variant :=
  [.professional, .artistic, .minimal, .bold, .gradient, .duotone, .vintage]

/-- The profile variants requested by the full batch
(src/components/ImageProcessor.tsx line 56). -/
def batchProfileVariants : List Variant :=
  [.professional, .artistic, .minimal, .bold]

/-- `createHeadshotVariant` (src/utils/imageUtils.ts lines 460-697): a
500×500 canvas whose drawing recipe depends on the variant.  `noise` is the
stream of `Math.random()` samples the vintage branch draws for its noise
texture (value `Math.floor(noise(i) * 20)` at pixel i); no other branch
reads it. -/
def createHeadshotVariant (profileImg logoImg : Raster) (noise : ℕ → ℚ)
    (variant : Variant) : Canvas :=
  { width := 500, height := 500,
    ops :=
      match variant with
      | .professional =>
        [ DrawOp.clipCircle 250 250 250,
          drawImagePropOp .profilePhoto profileImg 0 0 500 500 1 .sourceOver,
          drawImagePropOp .processedLogo logoImg (400 - 80) (400 - 80) 80 80
            (7/10) .sourceOver,
          addVignette 500 500 ]
      | .artistic =>
        [ DrawOp.clipCircle 250 250 250,
          drawImagePropOp .profilePhoto profileImg 0 0 500 500 1 .sourceOver,
          DrawOp.fillRect (.color "rgba(65, 105, 225, 0.2)") 0 0 500 500,
          drawImagePropOp .processedLogo logoImg 150 150 200 200 (4/10) .overlay ]
      | .minimal =>
        [ DrawOp.clipCircle 250 250 240,
          drawImagePropOp .profilePhoto profileImg 0 0 500 500 1 .sourceOver,
          DrawOp.strokeCircle 250 250 240 "#fff" 10,
          drawImagePropOp .processedLogo logoImg 400 400 60 60 1 .sourceOver ]
      | .bold =>
        [ DrawOp.clipTriangle 0 0 500 0 500 500,
          drawImagePropOp .profilePhoto profileImg 0 0 500 500 1 .sourceOver,
          DrawOp.clipTriangle 0 0 0 500 500 500,
          DrawOp.fillRect (.color "#1d4ed8") 0 0 500 500,
          drawImagePropOp .processedLogo logoImg 150 250 200 200 1 .screen ]
      | .gradient =>
        [ DrawOp.fillRect (.linearGradient 0 0 500 500 "#3b82f6" "#8b5cf6")
            0 0 500 500,
          DrawOp.clipCircle 250 230 180,
          drawImagePropOp .profilePhoto profileImg 70 50 360 360 1 .sourceOver,
          DrawOp.fillTextOp "YOUR NAME" 250 440 "bold 24px Arial" "white",
          drawImagePropOp .processedLogo logoImg (250 - 60/2) (380 - 60/2)
            60 60 1 .sourceOver ]
      | .duotone =>
        [ DrawOp.clipCircle 250 250 250,
          drawImagePropOp .profilePhoto profileImg 0 0 500 500 1 .sourceOver,
          DrawOp.applyDuotone 500 500,
          drawImagePropOp .processedLogo logoImg 350 350 120 120 (7/10) .lighten ]
      | .vintage =>
        [ DrawOp.fillRect (.color "#e2d3b4") 0 0 500 500,
          DrawOp.noiseTexture 500 500 (fun i => ⌊noise i * 20⌋),
          DrawOp.strokeRectOp 40 40 420 420 "#8B4513" 20,
          DrawOp.strokeRectOp 60 60 380 380 "#D2B48C" 10,
          DrawOp.clipCircle 250 250 170,
          drawImagePropOp .profilePhoto profileImg 80 80 340 340 1 .sourceOver,
          DrawOp.applySepia 500 500,
          drawImagePropOp .processedLogo logoImg 40 430 50 50 1 .sourceOver ] }

/-- The `type` selector of `combineImages`. -/
inductive ImgType
  | profile
  | banner
  deriving DecidableEq, Repr

/-- `combineImages` (src/utils/imageUtils.ts lines 9-112): a 500×500
headshot canvas or a 1584×396 banner canvas. -/
def combineImages (profileImg logoImg : Raster) (type : ImgType) : Canvas :=
  match type with
  | .profile =>
    { width := 500, height := 500,
      ops :=
        [ DrawOp.clipCircle 250 250 250,
          drawImagePropOp .profilePhoto profileImg 0 0 500 500 1 .sourceOver,
          drawImagePropOp .processedLogo logoImg (400 - 100) (400 - 100)
            100 100 (8/10) .sourceOver,
          addVignette 500 500,
          DrawOp.applyEnhance 500 500 ] }
  | .banner =>
    { width := 1584, height := 396,
      ops :=
        [ DrawOp.fillRect (.linearGradient 0 0 1584 396 "#f0f4f8" "#d1e2f2")
            0 0 1584 396,
          DrawOp.clipCircle (100 + 300/2) ((396 - 300)/2 + 300/2) (300/2),
          drawImagePropOp .profilePhoto profileImg 100 ((396 - 300)/2)
            300 300 1 .sourceOver,
          drawImagePropOp .processedLogo logoImg (1584 - 200 - 100)
            ((396 - 200)/2) 200 200 1 .sourceOver,
          DrawOp.strokeLine (1584/2) 50 (1584/2) (396 - 50) "rgba(0,0,0,0.1)" 1,
          DrawOp.fillTextOp "Professional • Trustworthy • Expert" (1584/2)
            (396 - 50) "bold 24px Arial" "#444" ] }

/-- The second banner layout, built inline inside `generateImages`
(src/components/ImageProcessor.tsx lines 87-147): gradient background,
circular profile photo, the unprocessed logo, and a caption, all drawn with
plain `ctx.drawImage`. -/
def secondBanner (profileImg logoImg : Raster) : Canvas :=
  { width := 1584, height := 396,
    ops :=
      [ DrawOp.fillRect (.linearGradient 0 0 1584 0 "#2563eb" "#4f46e5")
          0 0 1584 396,
        DrawOp.clipCircle 250 (396/2) (250/2),
        DrawOp.drawScaled .profilePhoto (250 - 250/2) (396/2 - 250/2) 250 250,
        DrawOp.drawScaled .rawLogo (1584 - 160 - 100) (396/2 - 160/2) 160 160,
        DrawOp.fillTextOp "Professional | Creative | Innovative" (1584/2)
          (396/2) "bold 40px Arial" "white" ] }

/-- The output record of a batch task
(src/components/ImageProcessor.tsx lines 6-11). -/
structure GeneratedImage where
  id : String
  url : String
  type : ImgType
  name : String
  deriving DecidableEq, Repr

/-- `Promise.all` over a list of task outcomes: resolves with all values,
or rejects as soon as any task rejects. -/
def promiseAll {α : Type} : List (Except String α) → Except String (List α)
  | [] => Except.ok []
  | Except.error e :: _ => Except.error e
  | Except.ok a :: rest => (promiseAll rest).map (fun l => a :: l)

/-- One profile-variant task of the batch
(src/components/ImageProcessor.tsx lines 59-73): the task body catches any
error of `createHeadshotVariant` and resolves with null in that case, so a
profile task never rejects. -/
def profileTask (outcome : Except String GeneratedImage) : Option GeneratedImage :=
  match outcome with
  | Except.ok g => some g
  | Except.error _ => none

/-- The batch orchestration of `generateImages`
(src/components/ImageProcessor.tsx lines 50-164): the profile tasks are
error-caught to nullable results, the two banner tasks are not guarded by
any catch, all tasks go through one `Promise.all`, its rejection is caught
by the outer try/catch which delivers no images at all, and on success the
null results are filtered out of the delivered sequence.  The outcome of
each underlying compositing computation enters as an `Except` parameter. -/
def generateImagesBatch (profiles : List (Except String GeneratedImage))
    (banners : List (Except String GeneratedImage)) :
    Option (List GeneratedImage) :=
  let tasks : List (Except String (Option GeneratedImage)) :=
    profiles.map (fun r => Except.ok (profileTask r)) ++
    banners.map (fun r => r.map some)
  match promiseAll tasks with
  | Except.error _ => none
  | Except.ok results => some (results.filterMap id)

/-- A color triple as read from the pixel buffer. -/
structure Color where
  r : ℕ
  g : ℕ
  b : ℕ
  deriving DecidableEq, Repr

/-- The coarse color bucket key of `findDominantBackgroundColor`
(src/utils/imageUtils.ts line 332): `Math.floor(channel/10)` per channel. -/
def bucketKey (c : Color) : ℕ × ℕ × ℕ :=
  (c.r / 10, c.g / 10, c.b / 10)

/-- One bucket of the `colorCounts` record: its key, its pixel count, and
its representative color — the channel values of the first sampled pixel
that opened the bucket (src/utils/imageUtils.ts lines 334-338). -/
structure BucketEntry where
  key : ℕ × ℕ × ℕ
  count : ℕ
  rep : Color
  deriving DecidableEq, Repr

/-- Insert one sampled color into the bucket list
(src/utils/imageUtils.ts lines 332-338): increment the existing bucket with
the same key, or append a fresh bucket with count 1 and this color as
representative.  JavaScript objects preserve insertion order, hence the
association list. -/
def addToCounts : List BucketEntry → Color → List BucketEntry
  | [], c => [⟨bucketKey c, 1, c⟩]
  | e :: rest, c =>
    if e.key = bucketKey c then ⟨e.key, e.count + 1, e.rep⟩ :: rest
    else e :: addToCounts rest c

/-- The bucket histogram of the sampled border colors, in insertion order. -/
def colorCounts (cs : List Color) : List BucketEntry :=
  cs.foldl addToCounts []

/-- One step of the selection loop of `findDominantBackgroundColor`
(src/utils/imageUtils.ts lines 346-354): replace the best so far when this
bucket's count strictly exceeds it. -/
def pickStep (best : ℕ × Color) (e : BucketEntry) : ℕ × Color :=
  if best.1 < e.count then (e.count, e.rep) else best

/-- The selection loop of `findDominantBackgroundColor`
(src/utils/imageUtils.ts lines 342-355): scan buckets in insertion order;
the starting best is count 0 with the white default. -/
def pickDominant (l : List BucketEntry) : ℕ × Color :=
  l.foldl pickStep (0, ⟨255, 255, 255⟩)

/-- The color `findDominantBackgroundColor` returns, as a function of the
sampled border colors. -/
def findDominantColor (cs : List Color) : Color :=
  (pickDominant (colorCounts cs)).2

/-- The count stored for key `k` in a bucket list (0 when absent). -/
def countOf : List BucketEntry → ℕ × ℕ × ℕ → ℕ
  | [], _ => 0
  | e :: rest, k => if e.key = k then e.count else countOf rest k

/-- The border-band sampling test of `findDominantBackgroundColor`
(src/utils/imageUtils.ts lines 313-325), which derives a single size
`width = Math.sqrt(pixelCount)` (a square-image approximation), computes
`x = pixelIndex % width` and `y = Math.floor(pixelIndex / width)` from it,
and samples when either coordinate is within `width * 0.1` of 0 or of
`width`. -/
def codeSampled (pixelCount p : ℕ) : Prop :=
  let width : ℝ := Real.sqrt pixelCount
  let y : ℝ := ((⌊(p : ℝ) / width⌋ : ℤ) : ℝ)
  let x : ℝ := (p : ℝ) - width * y
  let edgeThreshold : ℝ := width * (1/10)
  x < edgeThreshold ∨ x > width - edgeThreshold ∨
  y < edgeThreshold ∨ y > width - edgeThreshold

/-- Modelled from the spec (§4.3 step 1) and the claim wording: sample the
pixels lying within 10% of the true width W of the left/right edges or
within 10% of the true height H of the top/bottom edges, with row-major
coordinates derived from the true width. -/
def claimSampled (W H p : ℕ) : Prop :=
  let x : ℝ := ((p % W : ℕ) : ℝ)
  let y : ℝ := ((p / W : ℕ) : ℝ)
  x < (W : ℝ) * (1/10) ∨ x > (W : ℝ) - (W : ℝ) * (1/10) ∨
  y < (H : ℝ) * (1/10) ∨ y > (H : ℝ) - (H : ℝ) * (1/10)

/-- The error kind the spec assigns to the blitter's zero-size edge case. -/
inductive BlitError
  | invalidSource
  deriving DecidableEq, Repr

/-- A full `drawImageProp` call as a fallible computation.  The source
function (src/utils/imageUtils.ts lines 130-178) contains no validation and
no throw path at all, so the translation always returns the drawing
operation it issues (recorded under default ambient alpha 1 and
source-over).  With a zero-dimension source the floating-point arithmetic
degenerates (`w/0 = Infinity` leads to a NaN crop) and the canvas
`drawImage` silently draws nothing; no error is raised either way. -/
def drawImagePropE (src : ImgSrc) (img : Raster) (x y w h offsetX offsetY : ℚ) :
    Except BlitError DrawOp :=
  Except.ok (DrawOp.drawCropped src
    (drawImagePropCrop img.width img.height w h offsetX offsetY)
    x y w h 1 BlendMode.sourceOver)

/-- Modelled from the spec (§4.2 edge case / §7): a blitter that fails with
`InvalidSourceError` when the source width or height is 0 and otherwise
issues the same drawing operation.  Used only to compare against
`drawImagePropE`, which is translated from the source. -/
def specDrawImageProp (src : ImgSrc) (img : Raster)
    (x y w h offsetX offsetY : ℚ) : Except BlitError DrawOp :=
  if img.width = 0 ∨ img.height = 0 then
    Except.error BlitError.invalidSource
  else
    Except.ok (DrawOp.drawCropped src
      (drawImagePropCrop img.width img.height w h offsetX offsetY)
      x y w h 1 BlendMode.sourceOver)

-- ===================== theorems =====================

/-- Helper: rounding is monotone. -/
lemma round_mono_rat {x y : ℚ} (h : x ≤ y) : round x ≤ round y := by
  rw [round_eq, round_eq]
  exact Int.floor_le_floor (by linarith)

/-- Helper: `u8store` always lands in [0,255]. -/
lemma u8store_mem (x : ℚ) : 0 ≤ u8store x ∧ u8store x ≤ 255 := by
  unfold u8store
  split
  · norm_num
  · split
    · norm_num
    · rename_i h0 h255
      push_neg at h0 h255
      have hlo : round (0 : ℚ) ≤ round x := round_mono_rat h0
      have hhi : round x ≤ round (255 : ℚ) := round_mono_rat h255
      have h0r : round (0 : ℚ) = 0 := by norm_num
      have h255r : round (255 : ℚ) = (255 : ℤ) := by
        rw [show (255 : ℚ) = ((255 : ℤ) : ℚ) by norm_num, round_intCast]
      omega

/-- Helper: rounding a rational literal. -/
lemma round_q255 : round (255 : ℚ) = (255 : ℤ) := by
  rw [show (255 : ℚ) = ((255 : ℤ) : ℚ) by norm_num, round_intCast]

/-- C2: for every nonnegative color distance (the code's distance is a
Euclidean norm, hence nonnegative), every edge flag and every incoming
alpha, the alpha written by `removeBackgroundAdvanced` is exactly what the
spec states: 0 when distance < 30 and not edge, the clamp to [0,255] of
round(distance/30 * 255) when distance < 45 and not edge, and the incoming
alpha otherwise. -/
theorem matteAlpha_eq_spec (d : ℚ) (e : Bool) (a : ℤ) (hd : 0 ≤ d) :
    matteAlpha d e a = specMatteAlpha d e a := by
  unfold matteAlpha specMatteAlpha
  rw [show (30 : ℚ) * (3/2) = 45 by norm_num]
  split
  · rfl
  · split
    · have hq : (0 : ℚ) ≤ d / 30 * 255 := by positivity
      have hX : (0 : ℤ) ≤ round (d / 30 * 255) := by
        have h := round_mono_rat hq
        simpa using h
      have : (0 : ℤ) ≤ min 255 (round (d / 30 * 255)) :=
        le_min (by norm_num) hX
      exact (max_eq_right this).symm
    · rfl

/-- C2 witness: the equality instantiated at distance 35, a non-edge pixel
and incoming alpha 7. -/
theorem matteAlpha_eq_spec_witness :
    (0 : ℚ) ≤ 35 ∧ matteAlpha 35 false 7 = specMatteAlpha 35 false 7 :=
  ⟨by norm_num, matteAlpha_eq_spec 35 false 7 (by norm_num)⟩

/-- C10 counterexample: at color distance 35 a non-edge pixel with incoming
alpha 100 gets alpha 255 from `removeBackgroundAdvanced` — neither 0 nor its
own incoming alpha, so the output alpha is not always 0 or the input
pixel's alpha. -/
theorem matteAlpha_c10_counterexample :
    matteAlpha 35 false 100 ≠ 0 ∧ matteAlpha 35 false 100 ≠ 100 := by
  have h : matteAlpha 35 false 100 = 255 := by
    unfold matteAlpha
    rw [if_neg (by norm_num), if_pos (by norm_num)]
    have hr : round ((35 : ℚ) / 30 * 255) = 298 := by
      rw [round_eq]
      norm_num [Int.floor_eq_iff]
    rw [hr]
    norm_num
  rw [h]
  exact ⟨by norm_num, by norm_num⟩

/-- C10 amended: the matte extractor writes alpha 0, a saturated alpha 255,
or leaves the incoming alpha unchanged; the partial-transparency branch can
only run when the distance is at least 30, where
min(255, round(distance/30 * 255)) always saturates to 255, so no strictly
intermediate fresh alpha value is ever produced. -/
theorem matteAlpha_zero_or_saturated_or_unchanged (d : ℚ) (e : Bool) (a : ℤ) :
    matteAlpha d e a = 0 ∨ matteAlpha d e a = 255 ∨ matteAlpha d e a = a := by
  unfold matteAlpha
  split
  · exact Or.inl rfl
  · rename_i h1
    split
    · rename_i h2
      refine Or.inr (Or.inl ?_)
      have hd30 : (30 : ℚ) ≤ d := by
        by_contra hlt
        push_neg at hlt
        exact h1 ⟨hlt, h2.2⟩
      have hq : (255 : ℚ) ≤ d / 30 * 255 := by
        have h1d : (1 : ℚ) ≤ d / 30 := by
          rw [le_div_iff₀ (by norm_num : (0:ℚ) < 30)]
          linarith
        nlinarith
      have hr : (255 : ℤ) ≤ round (d / 30 * 255) := by
        have h := round_mono_rat hq
        rwa [round_q255] at h
      exact min_eq_left hr
    · exact Or.inr (Or.inr rfl)

/-- C8: for every input pixel with all channels in [0,255], the
contrast/saturation enhancement and the sepia filter produce channels in
[0,255]; additionally all three pre-clamp sepia matrix rows are already
nonnegative for such inputs (the code only clamps them from above). -/
theorem enhance_sepia_range (r g b : ℤ)
    (hr0 : 0 ≤ r) (hr1 : r ≤ 255) (hg0 : 0 ≤ g) (hg1 : g ≤ 255)
    (hb0 : 0 ≤ b) (hb1 : b ≤ 255) :
    (0 ≤ (enhancePixel r g b).1 ∧ (enhancePixel r g b).1 ≤ 255) ∧
    (0 ≤ (enhancePixel r g b).2.1 ∧ (enhancePixel r g b).2.1 ≤ 255) ∧
    (0 ≤ (enhancePixel r g b).2.2 ∧ (enhancePixel r g b).2.2 ≤ 255) ∧
    (0 ≤ sepiaRawR r g b ∧ 0 ≤ sepiaRawG r g b ∧ 0 ≤ sepiaRawB r g b) ∧
    (0 ≤ (sepiaPixel r g b).1 ∧ (sepiaPixel r g b).1 ≤ 255) ∧
    (0 ≤ (sepiaPixel r g b).2.1 ∧ (sepiaPixel r g b).2.1 ≤ 255) ∧
    (0 ≤ (sepiaPixel r g b).2.2 ∧ (sepiaPixel r g b).2.2 ≤ 255) := by
  have hrq : (0 : ℚ) ≤ (r : ℚ) := by exact_mod_cast hr0
  have hgq : (0 : ℚ) ≤ (g : ℚ) := by exact_mod_cast hg0
  have hbq : (0 : ℚ) ≤ (b : ℚ) := by exact_mod_cast hb0
  simp only [enhancePixel, sepiaPixel, saturateByte]
  refine ⟨u8store_mem _, u8store_mem _, u8store_mem _, ⟨?_, ?_, ?_⟩,
    u8store_mem _, u8store_mem _, u8store_mem _⟩
  · unfold sepiaRawR
    linarith
  · unfold sepiaRawG
    linarith
  · unfold sepiaRawB
    linarith

/-- C8 witness: the range theorem instantiated at the pixel (10, 200, 255). -/
theorem enhance_sepia_range_witness :
    ((0:ℤ) ≤ 10 ∧ (10:ℤ) ≤ 255 ∧ (0:ℤ) ≤ 200 ∧ (200:ℤ) ≤ 255 ∧
     (0:ℤ) ≤ 255 ∧ (255:ℤ) ≤ 255) ∧
    ((0 ≤ (enhancePixel 10 200 255).1 ∧ (enhancePixel 10 200 255).1 ≤ 255) ∧
     (0 ≤ (enhancePixel 10 200 255).2.1 ∧ (enhancePixel 10 200 255).2.1 ≤ 255) ∧
     (0 ≤ (enhancePixel 10 200 255).2.2 ∧ (enhancePixel 10 200 255).2.2 ≤ 255) ∧
     (0 ≤ sepiaRawR 10 200 255 ∧ 0 ≤ sepiaRawG 10 200 255 ∧ 0 ≤ sepiaRawB 10 200 255) ∧
     (0 ≤ (sepiaPixel 10 200 255).1 ∧ (sepiaPixel 10 200 255).1 ≤ 255) ∧
     (0 ≤ (sepiaPixel 10 200 255).2.1 ∧ (sepiaPixel 10 200 255).2.1 ≤ 255) ∧
     (0 ≤ (sepiaPixel 10 200 255).2.2 ∧ (sepiaPixel 10 200 255).2.2 ≤ 255)) :=
  ⟨⟨by norm_num, by norm_num, by norm_num, by norm_num, by norm_num, by norm_num⟩,
   enhance_sepia_range 10 200 255 (by norm_num) (by norm_num) (by norm_num)
     (by norm_num) (by norm_num) (by norm_num)⟩

/-- Helper: the clamped offset of `drawImageProp` lies in [0,1]. -/
lemma clamp01_bounds (v : ℚ) :
    0 ≤ (if 1 < (if v < 0 then 0 else v) then 1 else if v < 0 then 0 else v) ∧
    (if 1 < (if v < 0 then 0 else v) then 1 else if v < 0 then 0 else v) ≤ 1 := by
  by_cases hv : v < 0
  · rw [if_pos hv, if_neg (by norm_num : ¬ (1:ℚ) < 0)]
    norm_num
  · rw [if_neg hv]
    by_cases h1 : 1 < v
    · rw [if_pos h1]
      norm_num
    · rw [if_neg h1]
      push_neg at hv h1
      exact ⟨hv, h1⟩

/-- Helper: the final clamping step of `drawImageProp` keeps the crop inside
the source along one axis, for any raw crop size `c` and any offset
`t ∈ [0,1]`. -/
lemma crop_clamp_bound (s c t : ℚ) (ht0 : 0 ≤ t) (ht1 : t ≤ 1) :
    0 ≤ (if (s - c) * t < 0 then 0 else (s - c) * t) ∧
    (if (s - c) * t < 0 then 0 else (s - c) * t) + (if s < c then s else c) ≤ s := by
  constructor
  · split
    · exact le_refl 0
    · rename_i hnn
      push_neg at hnn
      exact hnn
  · split
    · rename_i hneg
      split
      · linarith
      · rename_i hsc
        push_neg at hsc
        linarith
    · rename_i hnn
      push_neg at hnn
      split
      · rename_i hsc
        have hle : (s - c) * t ≤ 0 :=
          mul_nonpos_iff.mpr (Or.inr ⟨by linarith, ht0⟩)
        linarith
      · rename_i hsc
        push_neg at hsc
        have h1 : (s - c) * t ≤ (s - c) * 1 :=
          mul_le_mul_of_nonneg_left ht1 (by linarith)
        linarith

/-- C7: for every source raster with positive dimensions, every destination
rectangle with positive dimensions and arbitrary offsets (the function
clamps offsets to [0,1] itself), the crop rectangle computed by
`drawImageProp` satisfies cx ≥ 0, cy ≥ 0, cx + cw ≤ srcW and cy + ch ≤ srcH. -/
theorem drawImagePropCrop_in_bounds (iw ih w h offsetX offsetY : ℚ)
    (hiw : 0 < iw) (hih : 0 < ih) (hw : 0 < w) (hh : 0 < h) :
    0 ≤ (drawImagePropCrop iw ih w h offsetX offsetY).cx ∧
    0 ≤ (drawImagePropCrop iw ih w h offsetX offsetY).cy ∧
    (drawImagePropCrop iw ih w h offsetX offsetY).cx +
      (drawImagePropCrop iw ih w h offsetX offsetY).cw ≤ iw ∧
    (drawImagePropCrop iw ih w h offsetX offsetY).cy +
      (drawImagePropCrop iw ih w h offsetX offsetY).ch ≤ ih := by
  have hx := clamp01_bounds offsetX
  have hy := clamp01_bounds offsetY
  simp only [drawImagePropCrop]
  exact ⟨(crop_clamp_bound iw _ _ hx.1 hx.2).1,
         (crop_clamp_bound ih _ _ hy.1 hy.2).1,
         (crop_clamp_bound iw _ _ hx.1 hx.2).2,
         (crop_clamp_bound ih _ _ hy.1 hy.2).2⟩

/-- C7 witness: the bounds instantiated at a 4×3 source drawn into a 2×2
destination with centered offsets. -/
theorem drawImagePropCrop_in_bounds_witness :
    ((0:ℚ) < 4 ∧ (0:ℚ) < 3 ∧ (0:ℚ) < 2) ∧
    (0 ≤ (drawImagePropCrop 4 3 2 2 (1/2) (1/2)).cx ∧
     0 ≤ (drawImagePropCrop 4 3 2 2 (1/2) (1/2)).cy ∧
     (drawImagePropCrop 4 3 2 2 (1/2) (1/2)).cx +
       (drawImagePropCrop 4 3 2 2 (1/2) (1/2)).cw ≤ 4 ∧
     (drawImagePropCrop 4 3 2 2 (1/2) (1/2)).cy +
       (drawImagePropCrop 4 3 2 2 (1/2) (1/2)).ch ≤ 3) :=
  ⟨⟨by norm_num, by norm_num, by norm_num⟩,
   drawImagePropCrop_in_bounds 4 3 2 2 (1/2) (1/2)
     (by norm_num) (by norm_num) (by norm_num) (by norm_num)⟩

/-- C3 counterexample: the variant union type of `createHeadshotVariant` has
exactly seven inhabitants, and monochrome is not among their tags, so the
claimed eight-tag set with a monochrome compositor does not exist in the
code. -/
theorem variant_set_c3_counterexample :
    Fintype.card Variant = 7 ∧ "monochrome" ∉ allVariants.map Variant.name := by
  constructor
  · decide
  · decide

/-- C3 amended: the closed variant set has exactly the seven tags
professional, artistic, minimal, bold, gradient, duotone, vintage (no
monochrome variant or compositor exists); each maps to one 500×500
compositor recipe; and the full batch invokes only professional, artistic,
minimal and bold among them. -/
theorem variant_set_amended :
    allVariants.map Variant.name =
      ["professional", "artistic", "minimal", "bold", "gradient", "duotone",
       "vintage"] ∧
    allVariants.Nodup ∧
    (∀ v : Variant, v ∈ allVariants) ∧
    (∀ (p l : Raster) (noise : ℕ → ℚ) (v : Variant),
      (createHeadshotVariant p l noise v).width = 500 ∧
      (createHeadshotVariant p l noise v).height = 500) ∧
    batchProfileVariants =
      [Variant.professional, Variant.artistic, Variant.minimal, Variant.bold] := by
  refine ⟨rfl, by decide, ?_, ?_, rfl⟩
  · intro v
    cases v <;> simp [allVariants]
  · intro p l noise v
    exact ⟨rfl, rfl⟩

/-- C6: for every pair of input rasters of any dimensions, every profile
compositor produces a 500×500 canvas and every banner compositor produces a
1584×396 canvas. -/
theorem output_dimensions (p l : Raster) (noise : ℕ → ℚ) (v : Variant) :
    (createHeadshotVariant p l noise v).width = 500 ∧
    (createHeadshotVariant p l noise v).height = 500 ∧
    (combineImages p l ImgType.profile).width = 500 ∧
    (combineImages p l ImgType.profile).height = 500 ∧
    (combineImages p l ImgType.banner).width = 1584 ∧
    (combineImages p l ImgType.banner).height = 396 ∧
    (secondBanner p l).width = 1584 ∧
    (secondBanner p l).height = 396 :=
  ⟨rfl, rfl, rfl, rfl, rfl, rfl, rfl, rfl⟩

/-- C9: the professional variant draws no randomized content — its output
canvas is the same for any two states of the random stream (only the
vintage branch samples the stream for its noise texture), so two
invocations on identical inputs produce identical outputs. -/
theorem professional_deterministic (p l : Raster) (n1 n2 : ℕ → ℚ) :
    createHeadshotVariant p l n1 Variant.professional =
      createHeadshotVariant p l n2 Variant.professional :=
  rfl

/-- Helper: `Promise.all` over tasks that all resolved. -/
lemma promiseAll_map_ok {α : Type} (l : List α) :
    promiseAll (l.map Except.ok) = Except.ok l := by
  induction l with
  | nil => rfl
  | cons a rest ih => simp [promiseAll, ih, Except.map]

/-- Helper: `Promise.all` rejects when any listed task rejected. -/
lemma promiseAll_error {α : Type} (l : List (Except String α)) (e : String)
    (h : Except.error e ∈ l) : ∃ e2, promiseAll l = Except.error e2 := by
  induction l with
  | nil => cases h
  | cons a rest ih =>
    cases a with
    | error e1 => exact ⟨e1, rfl⟩
    | ok v =>
      have hrest : Except.error e ∈ rest := by
        rcases List.mem_cons.mp h with h1 | h2
        · simp at h1
        · exact h2
      rcases ih hrest with ⟨e2, he2⟩
      exact ⟨e2, by simp [promiseAll, he2, Except.map]⟩

/-- C1 counterexample: a batch with one successfully composited profile
variant in which the first banner task raises: the whole `Promise.all`
rejects, the outer catch fires, and no GeneratedImage at all is delivered —
the successful profile result is lost, contradicting the claim that a
single failing task only loses its own slot. -/
theorem generateImagesBatch_c1_counterexample :
    generateImagesBatch
      [Except.ok ⟨"profile-1", "u1", ImgType.profile, "Professional Headshot"⟩]
      [Except.error "banner failed",
       Except.ok ⟨"banner-2", "u2", ImgType.banner, "Modern LinkedIn Banner"⟩] =
      none :=
  rfl

/-- C1 amended: error scoping holds only for the profile-variant tasks —
when both banner tasks resolve, each failed profile task just loses its own
slot and all other results (including both banners) are delivered; but when
any banner task rejects, the entire batch delivers nothing. -/
theorem generateImagesBatch_scoping
    (profiles banners : List (Except String GeneratedImage))
    (b1 b2 : GeneratedImage) :
    generateImagesBatch profiles [Except.ok b1, Except.ok b2] =
      some (profiles.filterMap profileTask ++ [b1, b2]) ∧
    ((∃ e, Except.error e ∈ banners) →
      generateImagesBatch profiles banners = none) := by
  constructor
  · have htasks : profiles.map (fun r => Except.ok (profileTask r)) ++
        ([Except.ok b1, Except.ok b2] :
          List (Except String GeneratedImage)).map (fun r => r.map some) =
        (profiles.map profileTask ++ [some b1, some b2]).map Except.ok := by
      simp [Except.map, List.map_map]
    simp only [generateImagesBatch]
    rw [htasks, promiseAll_map_ok]
    simp [List.filterMap_append, List.filterMap_map, Function.comp]
  · rintro ⟨e, he⟩
    simp only [generateImagesBatch]
    have hmem : (Except.error e : Except String (Option GeneratedImage)) ∈
        profiles.map (fun r => Except.ok (profileTask r)) ++
        banners.map (fun r => r.map some) := by
      refine List.mem_append_right _ ?_
      exact List.mem_map.mpr ⟨Except.error e, he, rfl⟩
    rcases promiseAll_error _ e hmem with ⟨e2, he2⟩
    rw [he2]

/-- C1 witness: a concrete batch in which the second profile task fails but
both banners resolve delivers every other image; and a concrete batch in
which a banner task rejects delivers nothing. -/
theorem generateImagesBatch_scoping_witness :
    generateImagesBatch
      [Except.ok (⟨"profile-1", "u1", ImgType.profile, "Professional Headshot"⟩ :
         GeneratedImage),
       Except.error "artistic failed"]
      [Except.ok (⟨"banner-1", "u2", ImgType.banner,
         "Professional LinkedIn Banner"⟩ : GeneratedImage),
       Except.ok (⟨"banner-2", "u3", ImgType.banner, "Modern LinkedIn Banner"⟩ :
         GeneratedImage)] =
      some [⟨"profile-1", "u1", ImgType.profile, "Professional Headshot"⟩,
            ⟨"banner-1", "u2", ImgType.banner, "Professional LinkedIn Banner"⟩,
            ⟨"banner-2", "u3", ImgType.banner, "Modern LinkedIn Banner"⟩] ∧
    ((∃ e, (Except.error e : Except String GeneratedImage) ∈
        [Except.error "boom",
         Except.ok (⟨"banner-2", "u3", ImgType.banner, "b"⟩ : GeneratedImage)]) ∧
     generateImagesBatch
       [Except.ok (⟨"profile-1", "u1", ImgType.profile, "p"⟩ : GeneratedImage)]
       [Except.error "boom",
        Except.ok ⟨"banner-2", "u3", ImgType.banner, "b"⟩] = none) := by
  refine ⟨?_, ⟨"boom", by simp⟩, ?_⟩
  · have h := (generateImagesBatch_scoping
      [Except.ok ⟨"profile-1", "u1", ImgType.profile, "Professional Headshot"⟩,
       Except.error "artistic failed"]
      []
      ⟨"banner-1", "u2", ImgType.banner, "Professional LinkedIn Banner"⟩
      ⟨"banner-2", "u3", ImgType.banner, "Modern LinkedIn Banner"⟩).1
    simpa [profileTask] using h
  · exact (generateImagesBatch_scoping
      [Except.ok ⟨"profile-1", "u1", ImgType.profile, "p"⟩]
      [Except.error "boom", Except.ok ⟨"banner-2", "u3", ImgType.banner, "b"⟩]
      ⟨"banner-2", "u3", ImgType.banner, "b"⟩
      ⟨"banner-2", "u3", ImgType.banner, "b"⟩).2 ⟨"boom", by simp⟩

/-- C4 counterexample: invoked on a source raster of width 0, the blitter
does not fail — it returns a (degenerate) drawing operation — while the
spec's blitter fails with InvalidSourceError on the same input. -/
theorem drawImageProp_c4_counterexample :
    (drawImagePropE ImgSrc.rawLogo ⟨0, 5⟩ 0 0 100 100 (1/2) (1/2)).isOk = true ∧
    specDrawImageProp ImgSrc.rawLogo ⟨0, 5⟩ 0 0 100 100 (1/2) (1/2) =
      Except.error BlitError.invalidSource := by
  constructor
  · rfl
  · simp [specDrawImageProp]

/-- C4 amended: the blitter performs no zero-size validation and never
raises — every invocation returns a drawing operation — and away from the
zero-dimension edge case it agrees with the spec's validating blitter. -/
theorem drawImageProp_never_fails (src : ImgSrc) (img : Raster)
    (x y w h offsetX offsetY : ℚ) :
    (drawImagePropE src img x y w h offsetX offsetY).isOk = true ∧
    (¬ (img.width = 0 ∨ img.height = 0) →
      specDrawImageProp src img x y w h offsetX offsetY =
        drawImagePropE src img x y w h offsetX offsetY) := by
  constructor
  · rfl
  · intro hne
    simp [specDrawImageProp, drawImagePropE, hne]

/-- C4 witness: the agreement away from the edge case instantiated at a 3×4
source raster. -/
theorem drawImageProp_never_fails_witness :
    ¬ ((⟨3, 4⟩ : Raster).width = 0 ∨ (⟨3, 4⟩ : Raster).height = 0) ∧
    specDrawImageProp ImgSrc.rawLogo ⟨3, 4⟩ 0 0 100 100 (1/2) (1/2) =
      drawImagePropE ImgSrc.rawLogo ⟨3, 4⟩ 0 0 100 100 (1/2) (1/2) :=
  ⟨by norm_num,
   (drawImageProp_never_fails ImgSrc.rawLogo ⟨3, 4⟩ 0 0 100 100 (1/2) (1/2)).2
     (by norm_num)⟩

/-- Helper: inserting one color changes exactly its own bucket's count. -/
lemma countOf_addToCounts (acc : List BucketEntry) (c : Color) (k : ℕ × ℕ × ℕ) :
    countOf (addToCounts acc c) k =
      countOf acc k + (if bucketKey c = k then 1 else 0) := by
  induction acc with
  | nil =>
    by_cases h : bucketKey c = k <;> simp [addToCounts, countOf, h]
  | cons e rest ih =>
    by_cases h1 : e.key = bucketKey c
    · by_cases h2 : bucketKey c = k
      · simp [addToCounts, countOf, h1, h2, h1.trans h2]
      · have h3 : e.key ≠ k := by
          rw [h1]
          exact h2
        simp [addToCounts, countOf, h1, h2, h3]
    · by_cases h4 : e.key = k
      · have h5 : ¬ bucketKey c = k := by
          intro hh
          exact h1 (h4.trans hh.symm)
        have h6 : ¬ k = bucketKey c := fun hh => h5 hh.symm
        simp [addToCounts, countOf, h1, h4, h5, h6]
      · simp [addToCounts, countOf, h1, h4, ih]

/-- Helper: the histogram fold counts exactly the sampled colors falling in
each bucket. -/
lemma countOf_foldl (cs : List Color) (acc : List BucketEntry) (k : ℕ × ℕ × ℕ) :
    countOf (cs.foldl addToCounts acc) k =
      countOf acc k + (cs.filter (fun c => bucketKey c = k)).length := by
  induction cs generalizing acc with
  | nil => simp
  | cons c rest ih =>
    rw [List.foldl_cons, ih, countOf_addToCounts]
    by_cases h : bucketKey c = k <;> simp [h, List.filter_cons] <;> omega

/-- Helper: the selection fold's best count only grows and dominates every
scanned bucket. -/
lemma pickStep_foldl_max (l : List BucketEntry) (init : ℕ × Color) :
    init.1 ≤ (l.foldl pickStep init).1 ∧
    ∀ e ∈ l, e.count ≤ (l.foldl pickStep init).1 := by
  induction l generalizing init with
  | nil => simp
  | cons a rest ih =>
    rw [List.foldl_cons]
    have hinit : init.1 ≤ (pickStep init a).1 := by
      unfold pickStep
      split
      · rename_i h
        exact le_of_lt h
      · exact le_refl _
    have ha : a.count ≤ (pickStep init a).1 := by
      unfold pickStep
      split
      · exact le_refl _
      · rename_i h
        push_neg at h
        exact h
    obtain ⟨h1, h2⟩ := ih (pickStep init a)
    refine ⟨le_trans hinit h1, ?_⟩
    intro e he
    rcases List.mem_cons.mp he with rfl | hmem
    · exact le_trans ha h1
    · exact h2 e hmem

/-- Helper: the selection fold returns its initial best or some scanned
bucket's count and representative. -/
lemma pickStep_foldl_mem (l : List BucketEntry) (init : ℕ × Color) :
    l.foldl pickStep init = init ∨
    ∃ e ∈ l, l.foldl pickStep init = (e.count, e.rep) := by
  induction l generalizing init with
  | nil => exact Or.inl rfl
  | cons a rest ih =>
    rw [List.foldl_cons]
    rcases ih (pickStep init a) with h | ⟨e, he, heq⟩
    · by_cases hc : init.1 < a.count
      · right
        exact ⟨a, List.mem_cons_self a rest, by rw [h]; simp [pickStep, hc]⟩
      · left
        rw [h]
        simp [pickStep, hc]
    · right
      exact ⟨e, List.mem_cons_of_mem _ he, heq⟩

/-- Helper: inserting into a bucket list never empties it. -/
lemma addToCounts_ne_nil (acc : List BucketEntry) (c : Color) :
    addToCounts acc c ≠ [] := by
  cases acc with
  | nil => simp [addToCounts]
  | cons e rest =>
    simp only [addToCounts]
    split <;> simp

/-- Helper: the histogram fold preserves nonemptiness. -/
lemma foldl_addToCounts_ne_nil (cs : List Color) (acc : List BucketEntry)
    (h : acc ≠ []) : cs.foldl addToCounts acc ≠ [] := by
  induction cs generalizing acc with
  | nil => exact h
  | cons c rest ih =>
    rw [List.foldl_cons]
    exact ih _ (addToCounts_ne_nil acc c)

/-- Helper: every bucket in the histogram has been hit at least once. -/
lemma foldl_addToCounts_pos (cs : List Color) (acc : List BucketEntry)
    (h : ∀ e ∈ acc, 1 ≤ e.count) :
    ∀ e ∈ cs.foldl addToCounts acc, 1 ≤ e.count := by
  induction cs generalizing acc with
  | nil => exact h
  | cons c rest ih =>
    rw [List.foldl_cons]
    refine ih _ ?_
    intro e he
    induction acc with
    | nil =>
      simp [addToCounts] at he
      rw [he]
    | cons a arest iha =>
      simp only [addToCounts] at he
      rcases (by assumption : ∀ x ∈ a :: arest, 1 ≤ x.count) with _
      revert he
      split
      · intro he
        rcases List.mem_cons.mp he with rfl | hmem
        · have := h a (List.mem_cons_self a arest)
          simpa using Nat.le_succ_of_le this
        · exact h e (List.mem_cons_of_mem _ hmem)
      · intro he
        rcases List.mem_cons.mp he with rfl | hmem
        · exact h e (List.mem_cons_self e arest)
        · exact iha (fun x hx => h x (List.mem_cons_of_mem _ hx)) hmem

/-- C5 counterexample: on a 10×40 logo (400 pixels), pixel index 50 sits at
true coordinates (0, 5) — inside the claimed left band of width 1 — yet the
code, working with width = sqrt(400) = 20 for both axes, derives
coordinates (10, 2) and does not sample it. -/
theorem sampling_c5_counterexample :
    claimSampled 10 40 50 ∧ ¬ codeSampled (10 * 40) 50 := by
  constructor
  · unfold claimSampled
    left
    norm_num
  · have hsqrt : Real.sqrt (((10 * 40 : ℕ)) : ℝ) = 20 := by
      have h1 : (((10 * 40 : ℕ)) : ℝ) = 20 ^ 2 := by norm_num
      rw [h1, Real.sqrt_sq (by norm_num : (0:ℝ) ≤ 20)]
    have hfl : ⌊((50 : ℕ) : ℝ) / 20⌋ = (2 : ℤ) := by
      rw [Int.floor_eq_iff]
      norm_num
    simp only [codeSampled, hsqrt, hfl]
    push_neg
    norm_num

/-- C5 amended: the dominant-background sampler approximates the raster as a
square of side sqrt(pixelCount) and uses that single size for both axes —
for square inputs (side W) its sampled set is exactly the claimed band
within 10% of W of any edge, while for non-square inputs it diverges from
the claim; the bucket histogram counts sampled colors grouped by dividing
each channel into bands of width 10, and the returned color is the
representative of a bucket whose count is maximal. -/
theorem sampling_amended :
    (∀ W p : ℕ, 0 < W → (codeSampled (W * W) p ↔ claimSampled W W p)) ∧
    (∀ (cs : List Color) (k : ℕ × ℕ × ℕ),
      countOf (colorCounts cs) k =
        (cs.filter (fun c => bucketKey c = k)).length) ∧
    (∀ cs : List Color, cs ≠ [] →
      ∃ e ∈ colorCounts cs, findDominantColor cs = e.rep ∧
        ∀ e2 ∈ colorCounts cs, e2.count ≤ e.count) := by
  refine ⟨?_, ?_, ?_⟩
  · intro W p hW
    have hWpos : (0:ℝ) < (W:ℝ) := by exact_mod_cast hW
    have hsq : (((W * W : ℕ)) : ℝ) = (W:ℝ) ^ 2 := by
      push_cast
      ring
    have hsqrt : Real.sqrt (((W * W : ℕ)) : ℝ) = (W:ℝ) := by
      rw [hsq, Real.sqrt_sq hWpos.le]
    have hfloor : ⌊(p : ℝ) / (W : ℝ)⌋ = ((p / W : ℕ) : ℤ) := by
      rw [Int.floor_eq_iff]
      constructor
      · rw [le_div_iff₀ hWpos]
        exact_mod_cast Nat.div_mul_le_self p W
      · rw [div_lt_iff₀ hWpos]
        have hmodlt : p % W < W := Nat.mod_lt p hW
        have hdm : p / W * W + p % W = p := Nat.div_add_mod' p W
        have h1 : p < (p / W + 1) * W := by
          rw [add_mul, one_mul]
          linarith
        exact_mod_cast h1
    have hmod := Nat.div_add_mod p W
    have hx : (p : ℝ) - (W : ℝ) * ((p / W : ℕ) : ℝ) = ((p % W : ℕ) : ℝ) := by
      have hcast : ((W * (p / W) + p % W : ℕ) : ℝ) = (p : ℝ) := by rw [hmod]
      push_cast at hcast
      linarith
    simp only [codeSampled, claimSampled, hsqrt, hfloor, Int.cast_natCast, hx]
  · intro cs k
    unfold colorCounts
    rw [countOf_foldl]
    simp [countOf]
  · intro cs hcs
    obtain ⟨c0, rest, rfl⟩ : ∃ c0 rest, cs = c0 :: rest := by
      cases cs with
      | nil => exact absurd rfl hcs
      | cons a b => exact ⟨a, b, rfl⟩
    have hne : colorCounts (c0 :: rest) ≠ [] := by
      unfold colorCounts
      rw [List.foldl_cons]
      exact foldl_addToCounts_ne_nil rest _ (addToCounts_ne_nil [] c0)
    have hpos : ∀ e ∈ colorCounts (c0 :: rest), 1 ≤ e.count :=
      foldl_addToCounts_pos _ [] (by simp)
    obtain ⟨e0, he0⟩ := List.exists_mem_of_ne_nil _ hne
    rcases pickStep_foldl_mem (colorCounts (c0 :: rest)) (0, ⟨255, 255, 255⟩)
      with h | ⟨e, he, heq⟩
    · have hmax := (pickStep_foldl_max (colorCounts (c0 :: rest))
        (0, ⟨255, 255, 255⟩)).2 e0 he0
      rw [h] at hmax
      have h1 := hpos e0 he0
      simp at hmax
      omega
    · refine ⟨e, he, ?_, ?_⟩
      · unfold findDominantColor pickDominant
        rw [heq]
      · intro e2 he2
        have hmax := (pickStep_foldl_max (colorCounts (c0 :: rest))
          (0, ⟨255, 255, 255⟩)).2 e2 he2
        rw [heq] at hmax
        simpa using hmax

/-- C5 witness: the square-case coincidence at side 2 and pixel 0, the
bucket count at a one-pixel sample, and the dominant-bucket property of the
same sample. -/
theorem sampling_amended_witness :
    (0 < 2 ∧ (codeSampled (2 * 2) 0 ↔ claimSampled 2 2 0)) ∧
    (countOf (colorCounts [⟨5, 5, 5⟩]) (0, 0, 0) =
      (([⟨5, 5, 5⟩] : List Color).filter (fun c => bucketKey c = (0, 0, 0))).length) ∧
    (([⟨5, 5, 5⟩] : List Color) ≠ [] ∧
      ∃ e ∈ colorCounts [⟨5, 5, 5⟩], findDominantColor [⟨5, 5, 5⟩] = e.rep ∧
        ∀ e2 ∈ colorCounts [⟨5, 5, 5⟩], e2.count ≤ e.count) :=
  ⟨⟨by norm_num, sampling_amended.1 2 0 (by norm_num)⟩,
   sampling_amended.2.1 [⟨5, 5, 5⟩] (0, 0, 0),
   ⟨by simp, sampling_amended.2.2 [⟨5, 5, 5⟩] (by simp)⟩⟩
